import Mathlib

/-!
Shallow embedding of `src/scheduler/task.rs` (eduOS-rs scheduler core):
task identity and priority tags, the stack abstraction, the task control
block with its stack lifecycle, and the FIFO task queue with
identity-based removal.

Conventions of the embedding:
* `Rc<RefCell<Task>>` handles are identified by their pointer value,
  modelled as a `Nat`; `Rc::ptr_eq` is equality of these values.
* `LinkedList<Rc<RefCell<Task>>>` is a `List Handle` (front = head).
* Machine integers are `Nat` with explicit bounds where they matter
  (`u32` values are `< 4294967296`, `u8` values are `< 256`).
* The constants `STACK_SIZE` and `NO_PRIORITIES` come from `consts.rs`,
  which is outside the excerpt; they are kept as explicit parameters
  (`stackSize`, `noPriorities`).
* The `while let` loop of `TaskQueue::remove` contains no
  `cursor.move_next()` call, so the cursor never advances; the loop is
  embedded with an explicit fuel parameter, `none` meaning that the
  loop has not terminated within the given fuel.
-/

set_option autoImplicit false

namespace Scheduler

/-- The status of the task - used for scheduling (enum `TaskStatus`). -/
inductive TaskStatus where
  | TaskInvalid
  | TaskReady
  | TaskRunning
  | TaskBlocked
  | TaskFinished
  | TaskIdle
deriving DecidableEq

/-- Unique identifier for a task (newtype over `u32`). -/
structure TaskId where
  val : Nat
deriving DecidableEq

/-- `TaskId::into`: extract the raw integer. -/
def TaskId.into (t : TaskId) : Nat := t.val

/-- `TaskId::from`: construct from a raw integer (`from` is a Lean keyword). -/
def TaskId.fromRaw (x : Nat) : TaskId := ⟨x⟩

/-- Derived `PartialEq` on the newtype: equality of the raw fields. -/
def TaskId.beq (a b : TaskId) : Bool := a.val == b.val

/-- Derived `PartialOrd`/`Ord` on the newtype: order of the raw fields. -/
def TaskId.le (a b : TaskId) : Bool := decide (a.val ≤ b.val)

/-- Derived strict order on the newtype. -/
def TaskId.lt (a b : TaskId) : Bool := decide (a.val < b.val)

/-- Priority of a task (newtype over `u8`). -/
structure TaskPriority where
  val : Nat
deriving DecidableEq

/-- `TaskPriority::into`: extract the raw integer. -/
def TaskPriority.into (p : TaskPriority) : Nat := p.val

/-- `TaskPriority::from`: construct from a raw integer. -/
def TaskPriority.fromRaw (x : Nat) : TaskPriority := ⟨x⟩

/-- Derived `PartialEq` on the newtype: equality of the raw fields. -/
def TaskPriority.beq (a b : TaskPriority) : Bool := a.val == b.val

/-- Derived `PartialOrd`/`Ord` on the newtype: order of the raw fields. -/
def TaskPriority.le (a b : TaskPriority) : Bool := decide (a.val ≤ b.val)

/-- Derived strict order on the newtype. -/
def TaskPriority.lt (a b : TaskPriority) : Bool := decide (a.val < b.val)

/-- `REALTIME_PRIORITY: TaskPriority = TaskPriority::from(0)`. -/
def REALTIME_PRIORITY : TaskPriority := TaskPriority.fromRaw 0

/-- `HIGH_PRIORITY: TaskPriority = TaskPriority::from(0)`. -/
def HIGH_PRIORITY : TaskPriority := TaskPriority.fromRaw 0

/-- `NORMAL_PRIORITY: TaskPriority = TaskPriority::from(24)`. -/
def NORMAL_PRIORITY : TaskPriority := TaskPriority.fromRaw 24

/-- `LOW_PRIORITY: TaskPriority = TaskPriority::from(NO_PRIORITIES as u8 - 1)`.
Modelled from the spec: `NO_PRIORITIES` is configured in `consts.rs`, which
is not part of the excerpt, so it stays a parameter; `as u8` truncates
modulo 256 before the subtraction. -/
def LOW_PRIORITY (noPriorities : Nat) : TaskPriority :=
  TaskPriority.fromRaw (noPriorities % 256 - 1)

/-- A `Stack` value seen through its address: `base` is the address of
`buffer[0]` (the struct is `repr(C)`, so the buffer starts at the struct
address). The byte length `STACK_SIZE` is a parameter of the queries. -/
structure Stack where
  base : Nat
deriving DecidableEq

/-- `Stack::top`: address of `buffer[STACK_SIZE - 16]`, i.e. 16 bytes below
the end of the buffer. -/
def Stack.top (s : Stack) (stackSize : Nat) : Nat := s.base + (stackSize - 16)

/-- `Stack::bottom`: address of `buffer[0]`, the lowest buffer address. -/
def Stack.bottom (s : Stack) : Nat := s.base

/-- Addresses a `Task`'s `stack` field can hold: the null pointer (what
`alloc` returns on failure), the address of the static `BOOT_STACK`, or a
heap region identified by an allocation index. Statics and heap regions
are disjoint by memory layout, which the separate constructors encode. -/
inductive Addr where
  | null
  | boot
  | heap (n : Nat)
deriving DecidableEq

/-- `Layout`: size and alignment handed to the allocator. -/
structure Layout where
  size : Nat
  align : Nat
deriving DecidableEq

/-- `Layout::new::<Stack>()`: `Stack` is `repr(align(64))` around
`[u8; STACK_SIZE]`, so its size is `STACK_SIZE` rounded up to a multiple
of 64 and its alignment is 64. -/
def stackLayout (stackSize : Nat) : Layout :=
  ⟨(stackSize + 63) / 64 * 64, 64⟩

/-- Allocator accounting: `next` is the next fresh allocation index,
`live` the multiset of outstanding regions with their layouts, and the
counters/flag record total allocations, total deallocations, and whether
a free of a non-live or non-heap address ever happened. -/
structure AllocState where
  next : Nat
  live : List (Nat × Layout)
  allocCount : Nat
  deallocCount : Nat
  badFree : Bool
deriving DecidableEq

/-- The allocator state before any allocation. -/
def AllocState.init : AllocState := ⟨0, [], 0, 0, false⟩

/-- Modelled from the spec: the allocator implementation is not part of the
excerpt. Acquisition of a region either succeeds with a fresh heap address
(`hasMemory = true`) or, per the spec's error-handling policy, is a fatal
abort with no fallback (`Except.error`), from which control never returns. -/
def allocRegion (st : AllocState) (hasMemory : Bool) (l : Layout) :
    Except Unit (Addr × AllocState) :=
  if hasMemory then
    Except.ok (Addr.heap st.next,
      { st with
        next := st.next + 1
        live := (st.next, l) :: st.live
        allocCount := st.allocCount + 1 })
  else
    Except.error ()

/-- Modelled from the spec: release of a region at the allocator boundary.
Releasing a live heap region removes it from `live`; releasing anything
else (null, a static, or an already-freed region) is recorded as `badFree`. -/
def deallocRegion (st : AllocState) (a : Addr) (l : Layout) : AllocState :=
  match a with
  | Addr.heap n =>
    if (n, l) ∈ st.live then
      { st with
        live := st.live.erase (n, l)
        deallocCount := st.deallocCount + 1 }
    else
      { st with badFree := true }
  | _ => { st with badFree := true }

/-- A task control block (struct `Task`). -/
structure Task where
  id : TaskId
  prio : TaskPriority
  status : TaskStatus
  last_stack_pointer : Nat
  stack : Addr
deriving DecidableEq

/-- `Task::new_idle(id)`: borrows the boot stack, status `TaskIdle`,
priority `LOW_PRIORITY`, saved stack pointer 0. The body is a plain
struct literal: it contains no allocator call. -/
def Task.new_idle (noPriorities : Nat) (id : TaskId) : Task :=
  { id := id
    prio := LOW_PRIORITY noPriorities
    status := TaskStatus.TaskIdle
    last_stack_pointer := 0
    stack := Addr.boot }

/-- Allocator-accounting view of `Task::new_idle`: the constructor body
performs no allocator operation, so any allocator state passes through
unchanged. -/
def Task.new_idleTraced (st : AllocState) (noPriorities : Nat) (id : TaskId) :
    Task × AllocState :=
  (Task.new_idle noPriorities id, st)

/-- `Task::new(id, status, prio)`: acquires a `Layout::new::<Stack>()`
region from the allocator and stores the returned address in `stack`.
A fatal abort inside the allocator propagates (the call never returns). -/
def Task.new (stackSize : Nat) (st : AllocState) (hasMemory : Bool)
    (id : TaskId) (status : TaskStatus) (prio : TaskPriority) :
    Except Unit (Task × AllocState) :=
  match allocRegion st hasMemory (stackLayout stackSize) with
  | Except.error e => Except.error e
  | Except.ok (stack, st') =>
    Except.ok
      ({ id := id
         prio := prio
         status := status
         last_stack_pointer := 0
         stack := stack }, st')

/-- `<Task as Drop>::drop`: if `self.stack != &mut BOOT_STACK`, deallocate
the stack with `Layout::new::<Stack>()`; otherwise do nothing. -/
def Task.drop (stackSize : Nat) (st : AllocState) (t : Task) : AllocState :=
  if t.stack ≠ Addr.boot then
    deallocRegion st t.stack (stackLayout stackSize)
  else
    st

/-- Pointer identity of an `Rc<RefCell<Task>>` handle. -/
abbrev Handle := Nat

/-- `TaskQueue::push`: `push_back`, append at the tail. -/
def TaskQueue.push (q : List Handle) (task : Handle) : List Handle :=
  q ++ [task]

/-- `TaskQueue::pop`: `pop_front`, remove and return the head, `none` on
an empty queue. -/
def TaskQueue.pop (q : List Handle) : Option Handle × List Handle :=
  match q with
  | [] => (none, [])
  | h :: t => (some h, t)

/-- `TaskQueue::is_empty`. -/
def TaskQueue.is_empty (q : List Handle) : Bool := q.isEmpty

/-- `TaskQueue::remove`, embedded with fuel. The cursor starts at the
front; each loop iteration reads `cursor.current()`: at the ghost element
the loop ends, at a matching element `remove_current` runs and the loop
breaks, and at a non-matching element the body does nothing — the source
contains no `cursor.move_next()`, so the cursor stays on the same element
and the next iteration sees the same state. `none` means the loop has not
terminated within `fuel` iterations. -/
def TaskQueue.removeFuel (task : Handle) : Nat → List Handle → Option (List Handle)
  | 0, _ => none
  | fuel + 1, q =>
    match q with
    | [] => some []
    | h :: t =>
      if h = task then some t
      else TaskQueue.removeFuel task fuel (h :: t)

/-- Driver for the FIFO law: perform `fuel` many `pop` calls, collecting
the returned handles in order together with the final queue; a `none`
result stops the collection. -/
def TaskQueue.drainFuel : Nat → List Handle → List Handle × List Handle
  | 0, q => ([], q)
  | fuel + 1, q =>
    match TaskQueue.pop q with
    | (none, q') => ([], q')
    | (some h, q') =>
      let r := TaskQueue.drainFuel fuel q'
      (h :: r.1, r.2)

/-- Scheduler-level state for frame reasoning: a ready queue of handles
plus the task store mapping each handle (pointer) to the `Task` behind it.
The queue operations receive handles and never borrow the `RefCell`
contents mutably, so they act on the `queue` component only. -/
structure SchedState where
  readyQueue : List Handle
  tasks : Handle → Task

/-- `push` lifted to the scheduler state. -/
def SchedState.pushOp (s : SchedState) (t : Handle) : SchedState :=
  { s with readyQueue := TaskQueue.push s.readyQueue t }

/-- `pop` lifted to the scheduler state. -/
def SchedState.popOp (s : SchedState) : Option Handle × SchedState :=
  ((TaskQueue.pop s.readyQueue).1,
   { s with readyQueue := (TaskQueue.pop s.readyQueue).2 })

/-- `remove` lifted to the scheduler state (with fuel, as above). -/
def SchedState.removeOp (fuel : Nat) (s : SchedState) (t : Handle) :
    Option SchedState :=
  match TaskQueue.removeFuel t fuel s.readyQueue with
  | none => none
  | some q => some { s with readyQueue := q }

/-! Helper lemmas shared by the queue theorems. -/

/-- Folding `push` over a list appends it to the initial queue. -/
theorem foldl_push_eq (acc l : List Handle) :
    List.foldl TaskQueue.push acc l = acc ++ l := by
  induction l generalizing acc with
  | nil => simp
  | cons h t ih => simp [List.foldl, TaskQueue.push, ih]

/-- Draining a queue with fuel equal to its length pops every element in
order and leaves the empty queue. -/
theorem drainFuel_self (l : List Handle) :
    TaskQueue.drainFuel l.length l = (l, []) := by
  induction l with
  | nil => rfl
  | cons h t ih => simp [TaskQueue.drainFuel, TaskQueue.pop, ih]

/-- C3: pushing any finite sequence of handles into an initially empty
TaskQueue and then only popping returns exactly the pushed handles in push
order; after the last one, `pop` yields the explicit empty indicator
(`none`) and `is_empty` is `true`. -/
theorem fifo_pop_order (l : List Handle) :
    (TaskQueue.drainFuel l.length (List.foldl TaskQueue.push [] l)).1 = l ∧
    (TaskQueue.pop (TaskQueue.drainFuel l.length (List.foldl TaskQueue.push [] l)).2).1
      = none ∧
    TaskQueue.is_empty
      (TaskQueue.drainFuel l.length (List.foldl TaskQueue.push [] l)).2 = true := by
  rw [foldl_push_eq, List.nil_append, drainFuel_self]
  exact ⟨rfl, rfl, rfl⟩

/-- C1: in Scenario B (queue holding handles 1, 2, 3, then `remove` of
handle 2) the `remove` loop never terminates, for every fuel bound: the
cursor sits on handle 1, which is not the target, and the body contains no
`cursor.move_next()`, so no iteration makes progress. The spec's claimed
behavior (pops yield 1, then 3, then empty) is never reached. -/
theorem remove_scenarioB_diverges (fuel : Nat) :
    TaskQueue.removeFuel 2 fuel [1, 2, 3] = none := by
  induction fuel with
  | zero => rfl
  | succ n ih => simpa [TaskQueue.removeFuel] using ih

/-- C2: `remove` fails to terminate on every queue whose head is not the
requested handle, for every fuel bound: the loop re-reads the same cursor
position forever. It terminates only when the queue is empty or the head
is the target. -/
theorem remove_nonhead_diverges (task h : Handle) (t : List Handle) (fuel : Nat)
    (hne : h ≠ task) :
    TaskQueue.removeFuel task fuel (h :: t) = none := by
  induction fuel with
  | zero => rfl
  | succ n ih => simpa [TaskQueue.removeFuel, hne] using ih

/-- Witness for C2's divergence theorem: removing handle 7 from the
one-element queue [5] makes no progress within 100 iterations. -/
theorem remove_nonhead_diverges_witness :
    TaskQueue.removeFuel 7 100 [5] = none :=
  remove_nonhead_diverges 7 5 [] 100 (by decide)

/-- C7: for any Stack (any base address) with a buffer of at least the 16
reserved bytes, `top() - bottom() = STACK_SIZE - 16`. -/
theorem stack_top_sub_bottom (s : Stack) (stackSize : Nat)
    (hsz : 16 ≤ stackSize) :
    Stack.top s stackSize - Stack.bottom s = stackSize - 16 := by
  simp [Stack.top, Stack.bottom]

/-- Witness for C7 at base address 4096 and the configured stack size 8192. -/
theorem stack_top_sub_bottom_witness :
    Stack.top ⟨4096⟩ 8192 - Stack.bottom ⟨4096⟩ = 8192 - 16 :=
  stack_top_sub_bottom ⟨4096⟩ 8192 (by decide)

/-- C8: the priority landmark constants. `REALTIME_PRIORITY` and
`HIGH_PRIORITY` have raw value 0, `NORMAL_PRIORITY` has raw value 24,
`LOW_PRIORITY` has raw value `NO_PRIORITIES - 1`, and under the derived
`TaskPriority` order realtime/high < normal < low. `NO_PRIORITIES` comes
from `consts.rs` (outside the excerpt); per the spec it fits in `u8` after
the cast and the low landmark exceeds the normal one. -/
theorem priority_landmarks (noPriorities : Nat)
    (hlo : 25 < noPriorities) (hhi : noPriorities < 256) :
    REALTIME_PRIORITY.into = 0 ∧
    HIGH_PRIORITY.into = 0 ∧
    NORMAL_PRIORITY.into = 24 ∧
    (LOW_PRIORITY noPriorities).into = noPriorities - 1 ∧
    TaskPriority.lt REALTIME_PRIORITY NORMAL_PRIORITY = true ∧
    TaskPriority.lt NORMAL_PRIORITY (LOW_PRIORITY noPriorities) = true := by
  refine ⟨rfl, rfl, rfl, ?_, by decide, ?_⟩
  · simp [LOW_PRIORITY, TaskPriority.into, TaskPriority.fromRaw,
      Nat.mod_eq_of_lt hhi]
  · simp [LOW_PRIORITY, NORMAL_PRIORITY, TaskPriority.lt, TaskPriority.into,
      TaskPriority.fromRaw, Nat.mod_eq_of_lt hhi]
    omega

/-- Witness for C8 at the configured priority count 31. -/
theorem priority_landmarks_witness :
    REALTIME_PRIORITY.into = 0 ∧
    HIGH_PRIORITY.into = 0 ∧
    NORMAL_PRIORITY.into = 24 ∧
    (LOW_PRIORITY 31).into = 31 - 1 ∧
    TaskPriority.lt REALTIME_PRIORITY NORMAL_PRIORITY = true ∧
    TaskPriority.lt NORMAL_PRIORITY (LOW_PRIORITY 31) = true :=
  priority_landmarks 31 (by decide) (by decide)

/-- C9: `TaskId` and `TaskPriority` are pure tags. Construction from a raw
integer followed by extraction is the identity on the `u32` (resp. `u8`)
range, and equality and the derived order of two tags coincide with
equality and order of their raw integers. -/
theorem pure_comparable_tags (x y : Nat) (a b : TaskId) (p q : TaskPriority)
    (hx : x < 4294967296) (hy : y < 256) :
    (TaskId.fromRaw x).into = x ∧
    (TaskPriority.fromRaw y).into = y ∧
    ((a = b) ↔ a.into = b.into) ∧
    (TaskId.beq a b = true ↔ a.into = b.into) ∧
    (TaskId.le a b = true ↔ a.into ≤ b.into) ∧
    (TaskId.lt a b = true ↔ a.into < b.into) ∧
    ((p = q) ↔ p.into = q.into) ∧
    (TaskPriority.beq p q = true ↔ p.into = q.into) ∧
    (TaskPriority.le p q = true ↔ p.into ≤ q.into) ∧
    (TaskPriority.lt p q = true ↔ p.into < q.into) := by
  cases a with
  | mk av =>
    cases b with
    | mk bv =>
      cases p with
      | mk pv =>
        cases q with
        | mk qv =>
          simp [TaskId.into, TaskId.fromRaw, TaskId.beq, TaskId.le, TaskId.lt,
            TaskPriority.into, TaskPriority.fromRaw, TaskPriority.beq,
            TaskPriority.le, TaskPriority.lt, TaskId.mk.injEq,
            TaskPriority.mk.injEq]

/-- Witness for C9 at raw values 5 and 7 and concrete tags. -/
theorem pure_comparable_tags_witness :
    (TaskId.fromRaw 5).into = 5 :=
  (pure_comparable_tags 5 7 ⟨1⟩ ⟨2⟩ ⟨3⟩ ⟨4⟩ (by decide) (by decide)).1

/-- C4: allocation failure while constructing a non-idle Task is fatal and
never observable as an ordinary return value. Whenever `Task::new` does
return a `Task`, the allocator succeeded (`hasMemory = true`) and the
`stack` field is the address of the freshly allocated live region; when
the allocator has no memory, the fatal abort propagates and no `Task` is
produced. -/
theorem task_new_no_invalid_stack (stackSize : Nat) (st : AllocState)
    (hm : Bool) (id : TaskId) (status : TaskStatus) (prio : TaskPriority)
    (t : Task) (st₁ : AllocState)
    (hok : Task.new stackSize st hm id status prio = Except.ok (t, st₁)) :
    hm = true ∧
    t.stack = Addr.heap st.next ∧
    (st.next, stackLayout stackSize) ∈ st₁.live ∧
    Task.new stackSize st false id status prio = Except.error () := by
  cases hm with
  | false => simp [Task.new, allocRegion] at hok
  | true =>
    simp only [Task.new, allocRegion, if_pos, Except.ok.injEq, Prod.mk.injEq] at hok
    obtain ⟨ht, hst⟩ := hok
    subst ht
    subst hst
    simp [Task.new, allocRegion]

/-- Witness for C4: a successful construction from the initial allocator
state yields the task whose stack is heap region 0, live in the resulting
state. -/
theorem task_new_no_invalid_stack_witness :
    true = true ∧
    (Task.mk ⟨1⟩ ⟨24⟩ TaskStatus.TaskReady 0 (Addr.heap 0)).stack
      = Addr.heap AllocState.init.next ∧
    (AllocState.init.next, stackLayout 8192) ∈
      (AllocState.mk 1 [(0, stackLayout 8192)] 1 0 false).live ∧
    Task.new 8192 AllocState.init false ⟨1⟩ TaskStatus.TaskReady ⟨24⟩
      = Except.error () :=
  task_new_no_invalid_stack 8192 AllocState.init true ⟨1⟩ TaskStatus.TaskReady
    ⟨24⟩ (Task.mk ⟨1⟩ ⟨24⟩ TaskStatus.TaskReady 0 (Addr.heap 0))
    (AllocState.mk 1 [(0, stackLayout 8192)] 1 0 false) rfl

/-- C5: `Task::new_idle(id)` performs zero allocator calls (its
allocator-accounting view leaves any allocator state unchanged) and
returns the task borrowing the boot stack with status `TaskIdle`,
priority `LOW_PRIORITY` and saved stack pointer 0. -/
theorem new_idle_spec (st : AllocState) (noPriorities : Nat) (id : TaskId) :
    (Task.new_idle noPriorities id).id = id ∧
    (Task.new_idle noPriorities id).prio = LOW_PRIORITY noPriorities ∧
    (Task.new_idle noPriorities id).status = TaskStatus.TaskIdle ∧
    (Task.new_idle noPriorities id).last_stack_pointer = 0 ∧
    (Task.new_idle noPriorities id).stack = Addr.boot ∧
    (Task.new_idleTraced st noPriorities id).1 = Task.new_idle noPriorities id ∧
    (Task.new_idleTraced st noPriorities id).2 = st :=
  ⟨rfl, rfl, rfl, rfl, rfl, rfl, rfl⟩

/-- C6: dropping a Task deallocates the `Layout::new::<Stack>()` region
exactly when its stack is not the boot stack address, and a successful
`Task::new` followed by `drop` performs exactly one allocation and one
matching deallocation: the live-region set returns to what it was, with no
bad free recorded; dropping the boot-stack-borrowing idle task leaves the
allocator untouched. -/
theorem alloc_dealloc_symmetry (stackSize : Nat) (st : AllocState)
    (id : TaskId) (status : TaskStatus) (prio : TaskPriority)
    (t : Task) (st₁ : AllocState)
    (hok : Task.new stackSize st true id status prio = Except.ok (t, st₁)) :
    (Task.drop stackSize st₁ t).allocCount = st.allocCount + 1 ∧
    (Task.drop stackSize st₁ t).deallocCount = st.deallocCount + 1 ∧
    (Task.drop stackSize st₁ t).live = st.live ∧
    (Task.drop stackSize st₁ t).badFree = st.badFree ∧
    (∀ st' task, task.stack = Addr.boot → Task.drop stackSize st' task = st') ∧
    (∀ st' task, task.stack ≠ Addr.boot →
        Task.drop stackSize st' task
          = deallocRegion st' task.stack (stackLayout stackSize)) ∧
    (∀ st' n i, Task.drop stackSize st' (Task.new_idle n i) = st') := by
  simp only [Task.new, allocRegion, if_pos, Except.ok.injEq, Prod.mk.injEq] at hok
  obtain ⟨ht, hst⟩ := hok
  subst ht
  subst hst
  refine ⟨?_, ?_, ?_, ?_, ?_, ?_, ?_⟩
  · simp [Task.drop, deallocRegion]
  · simp [Task.drop, deallocRegion]
  · simp [Task.drop, deallocRegion]
  · simp [Task.drop, deallocRegion]
  · intro st' task hboot
    simp [Task.drop, hboot]
  · intro st' task hboot
    simp [Task.drop, hboot]
  · intro st' n i
    simp [Task.drop, Task.new_idle]

/-- Witness for C6: constructing from the initial allocator state and then
dropping restores an allocation count one above the initial one. -/
theorem alloc_dealloc_symmetry_witness :
    (Task.drop 8192 (AllocState.mk 1 [(0, stackLayout 8192)] 1 0 false)
        (Task.mk ⟨1⟩ ⟨24⟩ TaskStatus.TaskReady 0 (Addr.heap 0))).allocCount
      = AllocState.init.allocCount + 1 :=
  (alloc_dealloc_symmetry 8192 AllocState.init ⟨1⟩ TaskStatus.TaskReady ⟨24⟩
    (Task.mk ⟨1⟩ ⟨24⟩ TaskStatus.TaskReady 0 (Addr.heap 0))
    (AllocState.mk 1 [(0, stackLayout 8192)] 1 0 false) rfl).1

/-- C10: the queue operations never touch the task store. `push` appends
the given handle unchanged and leaves every task as it was; `pop` returns
the head handle and leaves every task as it was; a terminating `remove`
changes only queue membership, never task contents. -/
theorem queue_ops_frame (s : SchedState) (h : Handle) (fuel : Nat)
    (s' : SchedState)
    (hrem : SchedState.removeOp fuel s h = some s') :
    (SchedState.pushOp s h).tasks = s.tasks ∧
    (SchedState.pushOp s h).readyQueue = s.readyQueue ++ [h] ∧
    (SchedState.popOp s).2.tasks = s.tasks ∧
    (SchedState.popOp s).1 = s.readyQueue.head? ∧
    s'.tasks = s.tasks := by
  refine ⟨rfl, rfl, rfl, ?_, ?_⟩
  · cases hq : s.readyQueue <;> simp [SchedState.popOp, TaskQueue.pop, hq]
  · unfold SchedState.removeOp at hrem
    cases hq : TaskQueue.removeFuel h fuel s.readyQueue with
    | none => simp [hq] at hrem
    | some q =>
      simp only [hq, Option.some.injEq] at hrem
      subst hrem
      rfl

/-- Witness for C10: removing handle 3 from the one-element queue holding
it terminates within one iteration, and pushing preserves the task store. -/
theorem queue_ops_frame_witness :
    (SchedState.pushOp (SchedState.mk [3] (fun _ => Task.new_idle 31 ⟨0⟩)) 3).tasks
      = (SchedState.mk [3] (fun _ => Task.new_idle 31 ⟨0⟩)).tasks :=
  (queue_ops_frame (SchedState.mk [3] (fun _ => Task.new_idle 31 ⟨0⟩)) 3 1
    (SchedState.mk [] (fun _ => Task.new_idle 31 ⟨0⟩)) rfl).1

end Scheduler
